import Mathlib

/-!
Verification of `src/multi_misra_violation.c` against its specification.

The repository contains a single 17-line C file, `multi_misra_violation.c`,
whose function `example` exhibits three MISRA-C rule violations.  The
specification additionally describes a static-analysis rule engine (fact
model, rules, registry, traversal) that is not part of the repository's
sources; that engine is modelled here from the specification's words.

Part 1 embeds the C function `example` itself (values, statements, the
usual arithmetic conversions, an uninitialized-read discipline and a
bounded model of `sprintf`).  Part 2 models the rule engine from the
specification and builds the fact graph of the source file.
-/

/-! ## Part 1: embedding of the C function `example` -/

/-- `2^32`, the modulus of `uint32_t` arithmetic. -/
def uint32Mod : Nat := 4294967296

/-- C conversion of an integer value to `uint32_t`: reduction modulo `2^32`
(C17 6.3.1.3p2).  This is the conversion applied to the promoted value of
`b` by the usual arithmetic conversions in `a > b` (line 8). -/
def wrapToUInt32 (n : Int) : Nat := (n % 4294967296).toNat

/-- The comparison `a > b` of line 8 of the source, where `a` holds a
`uint32_t` value `u` and `b` holds a (promoted) signed value `i`: the
usual arithmetic conversions convert `i` to `uint32_t` before comparing. -/
def ucompareGT (u : Nat) (i : Int) : Bool := decide (u > wrapToUInt32 i)

/-- Runtime values of the locals of `example`. -/
inductive CVal where
  | uintV (v : Nat)
  | sintV (v : Int)
  | bytesV (s : String)
  | indet
deriving DecidableEq

/-- The local variables of `example`: a, b, ptr, iptr, buffer. -/
inductive Var where
  | a
  | b
  | ptr
  | iptr
  | buffer
deriving DecidableEq, BEq

/-- Observable events of a run of `example`: a taken branch, a read of an
indeterminate (uninitialized) local, an out-of-bounds formatted write. -/
inductive Event where
  | branchTaken (line : Nat)
  | indetRead (name : Var) (line : Nat)
  | overflowWrite (line : Nat)
deriving DecidableEq

/-- A program state: the local environment of the current frame (a local
declared without an initializer maps to `none`), and everything outside
the frame, abstracted as an arbitrary type `α`. -/
structure CState (α : Type) where
  locals : List (Var × Option CVal)
  outer : α

/-- Store a value into a local (declaration with initializer, or
assignment). -/
def setLocal {α : Type} (s : CState α) (n : Var) (v : CVal) : CState α :=
  { s with locals := (n, some v) :: s.locals }

/-- Declare a local without an initializer: it starts indeterminate. -/
def declLocal {α : Type} (s : CState α) (n : Var) : CState α :=
  { s with locals := (n, none) :: s.locals }

/-- Read a local at a given source line.  Reading a local declared without
an initializer yields an indeterminate value and records the event. -/
def readLocal {α : Type} (s : CState α) (n : Var) (line : Nat) :
    CVal × List Event :=
  match s.locals.lookup n with
  | some (some v) => (v, [])
  | some none => (CVal.indet, [Event.indetRead n line])
  | none => (CVal.indet, [Event.indetRead n line])

/-- Render a format string whose single conversion is `%u`, substituting
the decimal rendering of the argument (the `"Value: %u"` case of line 16). -/
def substFmtU : List Char → Nat → List Char
  | [], _ => []
  | '%' :: 'u' :: rest, n => (Nat.repr n).data ++ rest
  | c :: rest, n => c :: substFmtU rest n

/-- String version of `substFmtU`. -/
def renderFormatU (fmt : String) (n : Nat) : String := ⟨substFmtU fmt.data n⟩

/-- Bounded model of `sprintf(buffer, fmt, arg)` into a buffer of
`bufSize` bytes: the rendered string plus its terminating NUL must fit,
otherwise the write is out of bounds (`none`). -/
def sprintfModel (bufSize : Nat) (fmt : String) (arg : Nat) : Option String :=
  let out := renderFormatU fmt arg
  if out.length + 1 ≤ bufSize then some out else none

/-- The body of `void example(void)`, translated statement by statement
from `multi_misra_violation.c` lines 5-16.  Returns the final state and
the list of observable events. -/
def runExample {α : Type} (s0 : CState α) : CState α × List Event :=
  -- line 5: uint32_t a = 1000;  (the initializer is converted to uint32_t)
  let s1 := setLocal s0 Var.a (CVal.uintV (1000 % uint32Mod))
  -- line 6: int8_t b = -1;   (-1 is representable in int8_t)
  let s2 := setLocal s1 Var.b (CVal.sintV (-1))
  -- line 8: if (a > b) { }
  let ra := readLocal s2 Var.a 8
  let rb := readLocal s2 Var.b 8
  let cond := match ra.1, rb.1 with
    | CVal.uintV u, CVal.sintV i => ucompareGT u i
    | _, _ => false
  let e3 := if cond then [Event.branchTaken 8] else []
  -- line 12: void* ptr;   (no initializer)
  let s3 := declLocal s2 Var.ptr
  -- line 13: int* iptr = (int*)ptr;  (the cast reads ptr; value unchanged)
  let rp := readLocal s3 Var.ptr 13
  let s4 := setLocal s3 Var.iptr rp.1
  -- line 15: char buffer[100];
  let s5 := declLocal s4 Var.buffer
  -- line 16: sprintf(buffer, "Value: %u", a);
  let rv := readLocal s5 Var.a 16
  let step6 := match rv.1 with
    | CVal.uintV u =>
      (match sprintfModel 100 "Value: %u" u with
       | some out => (setLocal s5 Var.buffer (CVal.bytesV out), ([] : List Event))
       | none => (s5, [Event.overflowWrite 16]))
    | _ => (s5, [Event.overflowWrite 16])
  (step6.1, ra.2 ++ rb.2 ++ e3 ++ rp.2 ++ rv.2 ++ step6.2)

/-! ## Part 2: the rule engine, modelled from the specification -/

/-- Modelled from the spec: signedness of a scalar type
(spec section 3, TypeDescriptor: signed/unsigned/none); the rule engine is
not among the repository's sources. -/
inductive Signedness where
  | signed
  | unsigned
  | nosign
deriving DecidableEq

/-- Modelled from the spec: the pointer component of a TypeDescriptor
(spec section 3: "pointer target type (or none, or void)"). -/
inductive PtrTarget where
  | notPtr
  | toVoid
  | toObj (name : String)
deriving DecidableEq

/-- Modelled from the spec: TypeDescriptor — signedness, bit width,
pointer target (spec section 3). -/
structure TypeDescriptor where
  signedness : Signedness
  width : Nat
  pointee : PtrTarget
deriving DecidableEq

/-- Modelled from the spec: the tagged kind of a fact node
(spec section 3, Node: "binary comparison", "cast expression",
"call expression", plus declarations and statements). -/
inductive NodeKind where
  | comparison (lhs rhs : TypeDescriptor)
  | cast (src tgt : TypeDescriptor)
  | call (callee : String)
  | decl (name : String) (ty : TypeDescriptor)
  | ifStmt
deriving DecidableEq

/-- Modelled from the spec: a source location (file, line, column). -/
structure Loc where
  file : String
  line : Nat
  col : Nat
deriving DecidableEq

/-- Modelled from the spec: a fact-graph node — kind, location and
children in source order (spec sections 3 and 4.1). -/
inductive Node where
  | mk (kind : NodeKind) (loc : Loc) (children : List Node)

/-- The kind of a node. -/
def Node.kind : Node → NodeKind
  | .mk k _ _ => k

/-- The location of a node. -/
def Node.loc : Node → Loc
  | .mk _ l _ => l

/-- Modelled from the spec: a Diagnostic — location, rule id, severity,
rendered message (spec section 3). -/
structure Diagnostic where
  loc : Loc
  ruleId : String
  severity : String
  message : String
deriving DecidableEq

/-- Modelled from the spec: a Rule — stable string id, category tag,
severity, and the capability set of a match predicate and an explain
function (spec sections 3, 4.2). -/
structure Rule where
  id : String
  category : String
  severity : String
  matchesFn : Node → Bool
  explain : Node → String

/-- True when one signedness is signed and the other unsigned, in either
order. -/
def diffSignedness : Signedness → Signedness → Bool
  | .signed, .unsigned => true
  | .unsigned, .signed => true
  | _, _ => false

/-- Modelled from the spec: UnsignedSignedCompareRule — matches any
comparison node whose two operand TypeDescriptors differ in signedness,
regardless of width (spec section 4.2). -/
def unsignedSignedCompareRule : Rule where
  id := "MISRA.10.1"
  category := "types"
  severity := "warning"
  matchesFn := fun n =>
    match n.kind with
    | .comparison l r => diffSignedness l.signedness r.signedness
    | _ => false
  explain := fun _ => "comparison between signed and unsigned operands"

/-- Modelled from the spec: VoidPointerCastRule — matches any cast node
whose source type is void* and whose target is a non-void object pointer
(spec section 4.2). -/
def voidPointerCastRule : Rule where
  id := "MISRA.11.3"
  category := "pointers"
  severity := "warning"
  matchesFn := fun n =>
    match n.kind with
    | .cast s t =>
        (s.pointee == PtrTarget.toVoid) &&
        (match t.pointee with
         | .toObj _ => true
         | _ => false)
    | _ => false
  explain := fun _ => "cast from void pointer to object pointer"

/-- Modelled from the spec: UnboundedFormatWriteRule — matches any call
node whose callee is a member of the configured set of unchecked
formatted-write function names, supplied at registry construction
(spec section 4.2). -/
def unboundedFormatWriteRule (writerSet : List String) : Rule where
  id := "MISRA.21.6"
  category := "stdlib"
  severity := "warning"
  matchesFn := fun n =>
    match n.kind with
    | .call callee => writerSet.contains callee
    | _ => false
  explain := fun _ => "unchecked formatted write function"

/-- Modelled from the spec: the Rule Registry — rules with an enabled
flag, in registration order (spec section 4.3). -/
structure Registry where
  rules : List (Rule × Bool)

/-- Modelled from the spec: the currently active rules, in registration
order (spec section 4.3). -/
def Registry.activeRules (R : Registry) : List Rule :=
  (R.rules.filter (fun p => p.2)).map (fun p => p.1)

/-- Modelled from the spec: registration fails with DuplicateRuleId when
the id already exists (spec section 4.3). -/
def Registry.register (R : Registry) (r : Rule) : Except String Registry :=
  if R.rules.any (fun p => p.1.id == r.id) then
    Except.error "DuplicateRuleId"
  else
    Except.ok { rules := R.rules ++ [(r, true)] }

/-- Evaluate every active rule at one node, in registration order,
emitting a diagnostic per match (spec section 4.4). -/
def evalRulesAt (rs : List Rule) (n : Node) : List Diagnostic :=
  rs.filterMap (fun r =>
    if r.matchesFn n then
      some ⟨n.loc, r.id, r.severity, r.explain n⟩
    else
      none)

mutual
/-- Modelled from the spec: depth-first pre-order visit of one node
(spec section 4.4). -/
def visitNode (rs : List Rule) : Node → List Diagnostic
  | .mk k l cs => evalRulesAt rs (.mk k l cs) ++ visitList rs cs
/-- Pre-order visit of a sibling list, in source order. -/
def visitList (rs : List Rule) : List Node → List Diagnostic
  | [] => []
  | c :: cs => visitNode rs c ++ visitList rs cs
end

/-- Modelled from the spec: the Traversal Engine — one depth-first
pre-order walk rooted at each top-level node, dispatching the active
rules of the registry (spec section 4.4).  Output is the pre-suppression
diagnostic sequence. -/
def runTraversal (G : List Node) (R : Registry) : List Diagnostic :=
  visitList R.activeRules G

/-- Modelled from the spec: registry construction with the configured set
of unchecked formatted-write function names (spec sections 4.2 and 6);
the three concrete rules are registered in spec order. -/
def mkRegistry (writerSet : List String) : Registry where
  rules := [(unsignedSignedCompareRule, true),
            (voidPointerCastRule, true),
            (unboundedFormatWriteRule writerSet, true)]

/-- The registry configured for the source file: sprintf is in the
unchecked formatted-write set. -/
def misraRegistry : Registry := mkRegistry ["sprintf"]

/-! ## Fact graphs -/

/-- TypeDescriptor of `uint32_t` (the type of `a`). -/
def td_uint32 : TypeDescriptor := ⟨Signedness.unsigned, 32, PtrTarget.notPtr⟩

/-- TypeDescriptor of `int8_t` (the type of `b`). -/
def td_int8 : TypeDescriptor := ⟨Signedness.signed, 8, PtrTarget.notPtr⟩

/-- TypeDescriptor of `void*` (the type of `ptr`). -/
def td_voidPtr : TypeDescriptor := ⟨Signedness.nosign, 64, PtrTarget.toVoid⟩

/-- TypeDescriptor of `int*` (the type of `iptr`). -/
def td_intPtr : TypeDescriptor := ⟨Signedness.nosign, 64, PtrTarget.toObj "int"⟩

/-- TypeDescriptor of `char[100]` (the type of `buffer`). -/
def td_charArr : TypeDescriptor := ⟨Signedness.nosign, 8, PtrTarget.notPtr⟩

/-- The name of the source file. -/
def srcFile : String := "multi_misra_violation.c"

/-- The fact graph of `multi_misra_violation.c`, one top-level node per
statement of `example` (lines 5, 6, 8, 12, 13, 15, 16); the comparison
of line 8 is a child of the if statement, the cast of line 13 a child of
the declaration of `iptr`. -/
def sourceGraph : List Node :=
  [Node.mk (NodeKind.decl "a" td_uint32) ⟨srcFile, 5, 5⟩ [],
   Node.mk (NodeKind.decl "b" td_int8) ⟨srcFile, 6, 5⟩ [],
   Node.mk NodeKind.ifStmt ⟨srcFile, 8, 5⟩
     [Node.mk (NodeKind.comparison td_uint32 td_int8) ⟨srcFile, 8, 9⟩ []],
   Node.mk (NodeKind.decl "ptr" td_voidPtr) ⟨srcFile, 12, 5⟩ [],
   Node.mk (NodeKind.decl "iptr" td_intPtr) ⟨srcFile, 13, 5⟩
     [Node.mk (NodeKind.cast td_voidPtr td_intPtr) ⟨srcFile, 13, 17⟩ []],
   Node.mk (NodeKind.decl "buffer" td_charArr) ⟨srcFile, 15, 5⟩ [],
   Node.mk (NodeKind.call "sprintf") ⟨srcFile, 16, 5⟩ []]

/-- The fact graph of the three-line program
`a: uint32 = 1000; b: int8 = -1; if (a > b) {}` (spec section 8): the
comparison sits at line 3. -/
def graphCompare : List Node :=
  [Node.mk (NodeKind.decl "a" td_uint32) ⟨"mini.c", 1, 1⟩ [],
   Node.mk (NodeKind.decl "b" td_int8) ⟨"mini.c", 2, 1⟩ [],
   Node.mk NodeKind.ifStmt ⟨"mini.c", 3, 1⟩
     [Node.mk (NodeKind.comparison td_uint32 td_int8) ⟨"mini.c", 3, 5⟩ []]]

/-- The fact graph of `void* ptr; int* iptr = (int*)ptr;`, with the
locations the two statements have in the source file (lines 12 and 13):
the cast expression sits at line 13. -/
def graphCast : List Node :=
  [Node.mk (NodeKind.decl "ptr" td_voidPtr) ⟨srcFile, 12, 5⟩ [],
   Node.mk (NodeKind.decl "iptr" td_intPtr) ⟨srcFile, 13, 5⟩
     [Node.mk (NodeKind.cast td_voidPtr td_intPtr) ⟨srcFile, 13, 17⟩ []]]

/-- The call node `sprintf(buffer, "Value: %u", a)` of line 16. -/
def callNodeSprintf : Node :=
  Node.mk (NodeKind.call "sprintf") ⟨srcFile, 16, 5⟩ []

/-- A registry with the same active rules as `misraRegistry` but a
different rule list: one extra, disabled, rule. -/
def registryWithDisabled : Registry where
  rules := [(unsignedSignedCompareRule, true),
            (voidPointerCastRule, true),
            (unboundedFormatWriteRule ["sprintf"], true),
            (unboundedFormatWriteRule [], false)]

/-! ## Theorems -/

/-- C1: the source file contains exactly three MISRA-C rule violations and
no others — the signed/unsigned comparison (line 8), the void-pointer cast
(line 13) and the sprintf call (line 16) — each at exactly one site of
`example`. -/
theorem source_has_exactly_three_violations :
    (runTraversal sourceGraph misraRegistry).map (fun d => (d.ruleId, d.loc.line)) =
      [("MISRA.10.1", 8), ("MISRA.11.3", 13), ("MISRA.21.6", 16)] := rfl

/-- C2: with a = 1000 of type uint32_t and b = -1 of type int8_t, the usual
arithmetic conversions convert b to 4294967295, the comparison `a > b` of
line 8 evaluates to false, and the guarded branch is never taken. -/
theorem usual_conversions_make_compare_false :
    wrapToUInt32 (-1) = 4294967295 ∧
    ucompareGT 1000 (-1) = false ∧
    ∀ (s : CState Unit), Event.branchTaken 8 ∉ (runExample s).2 := by
  refine ⟨by decide, by decide, fun s => ?_⟩
  have h : (runExample s).2 = [Event.indetRead Var.ptr 13] := rfl
  rw [h]
  decide

/-- C3: UnsignedSignedCompareRule matches a comparison node whenever the
operand signednesses are (signed, unsigned) or (unsigned, signed), in
either order and regardless of width, and never for (signed, signed) or
(unsigned, unsigned); in particular it matches the uint32_t-vs-int8_t
comparison of line 8. -/
theorem compare_rule_signedness :
    (∀ (l r : TypeDescriptor) (loc : Loc) (cs : List Node),
        ((l.signedness = Signedness.signed ∧ r.signedness = Signedness.unsigned) ∨
         (l.signedness = Signedness.unsigned ∧ r.signedness = Signedness.signed)) →
        unsignedSignedCompareRule.matchesFn
          (Node.mk (NodeKind.comparison l r) loc cs) = true) ∧
    (∀ (l r : TypeDescriptor) (loc : Loc) (cs : List Node),
        ((l.signedness = Signedness.signed ∧ r.signedness = Signedness.signed) ∨
         (l.signedness = Signedness.unsigned ∧ r.signedness = Signedness.unsigned)) →
        unsignedSignedCompareRule.matchesFn
          (Node.mk (NodeKind.comparison l r) loc cs) = false) ∧
    unsignedSignedCompareRule.matchesFn
      (Node.mk (NodeKind.comparison td_uint32 td_int8) ⟨srcFile, 8, 9⟩ []) = true := by
  refine ⟨?_, ?_, rfl⟩
  · rintro l r loc cs (⟨h1, h2⟩ | ⟨h1, h2⟩) <;>
      simp [unsignedSignedCompareRule, Node.kind, diffSignedness, h1, h2]
  · rintro l r loc cs (⟨h1, h2⟩ | ⟨h1, h2⟩) <;>
      simp [unsignedSignedCompareRule, Node.kind, diffSignedness, h1, h2]

/-- Witness for `compare_rule_signedness`: the concrete operand pair
int8_t (signed) against uint32_t (unsigned), in the reversed order. -/
theorem compare_rule_signedness_witness :
    unsignedSignedCompareRule.matchesFn
      (Node.mk (NodeKind.comparison td_int8 td_uint32) ⟨srcFile, 8, 9⟩ []) = true :=
  compare_rule_signedness.1 td_int8 td_uint32 ⟨srcFile, 8, 9⟩ [] (Or.inl ⟨rfl, rfl⟩)

/-- C4: on the fact graph of `a: uint32 = 1000; b: int8 = -1; if (a > b) {}`
the engine emits exactly one diagnostic, with rule id "MISRA.10.1" at
line 3; on the source file's own graph the corresponding diagnostic is the
one at line 8. -/
theorem compare_scenario_one_diagnostic :
    (runTraversal graphCompare misraRegistry).map (fun d => (d.ruleId, d.loc.line)) =
      [("MISRA.10.1", 3)] ∧
    ((runTraversal sourceGraph misraRegistry).filter
        (fun d => d.ruleId == "MISRA.10.1")).map (fun d => d.loc.line) = [8] :=
  ⟨rfl, rfl⟩

/-- C5: on the fact graph of `void* ptr; int* iptr = (int*)ptr;` the engine
emits exactly one diagnostic, with rule id "MISRA.11.3" at the line of the
cast expression, line 13 of the source file. -/
theorem cast_scenario_one_diagnostic :
    (runTraversal graphCast misraRegistry).map (fun d => (d.ruleId, d.loc.line)) =
      [("MISRA.11.3", 13)] := rfl

/-- C6: for the call node `sprintf(buffer, "Value: %u", a)`, a configured
set containing "sprintf" yields exactly one "MISRA.21.6" diagnostic, an
empty configured set yields none, and the rule is exactly a membership
test of the callee against the configured set. -/
theorem sprintf_rule_membership :
    (runTraversal [callNodeSprintf] (mkRegistry ["sprintf"])).map (fun d => d.ruleId) =
      ["MISRA.21.6"] ∧
    runTraversal [callNodeSprintf] (mkRegistry []) = [] ∧
    ∀ (ws : List String),
      (unboundedFormatWriteRule ws).matchesFn callNodeSprintf = ws.contains "sprintf" :=
  ⟨rfl, rfl, fun _ => rfl⟩

/-- C7: the traversal is deterministic — for every fact graph and any two
registries with the same active-rule sequence, the emitted pre-suppression
diagnostic sequences are identical; two runs on the same inputs are the
special case of a registry compared with itself. -/
theorem traversal_deterministic (G : List Node) (R1 R2 : Registry)
    (h : R1.activeRules = R2.activeRules) :
    runTraversal G R1 = runTraversal G R2 := by
  unfold runTraversal
  rw [h]

/-- Witness for `traversal_deterministic`: the source graph under the
configured registry and under a registry carrying an extra disabled rule. -/
theorem traversal_deterministic_witness :
    runTraversal sourceGraph registryWithDisabled =
      runTraversal sourceGraph misraRegistry :=
  traversal_deterministic sourceGraph registryWithDisabled misraRegistry rfl

/-- C8: `ptr` is declared without an initializer and is read by the cast
`(int*)ptr` of line 13: in every program state, running `example` reads an
indeterminate value of `ptr` at line 13 — the error branch of that read is
reachable, with no precondition initializing `ptr` first. -/
theorem uninitialized_ptr_read (α : Type) (s : CState α) :
    Event.indetRead Var.ptr 13 ∈ (runExample s).2 := by
  have h : (runExample s).2 = [Event.indetRead Var.ptr 13] := rfl
  rw [h]
  exact List.mem_singleton.mpr rfl

/-- C9: the sprintf call of line 16 cannot overflow: a is always 1000, the
rendered string is exactly "Value: 1000" — 11 characters plus the
terminating NUL, 12 bytes — within the 100-byte buffer; the modelled write
succeeds and no run of `example` reaches the out-of-bounds branch. -/
theorem sprintf_write_in_bounds :
    renderFormatU "Value: %u" 1000 = "Value: 1000" ∧
    ("Value: 1000".length + 1 = 12 ∧ 12 ≤ 100) ∧
    sprintfModel 100 "Value: %u" 1000 = some "Value: 1000" ∧
    ∀ (s : CState Unit), Event.overflowWrite 16 ∉ (runExample s).2 := by
  refine ⟨rfl, ⟨rfl, by decide⟩, rfl, fun s => ?_⟩
  have h : (runExample s).2 = [Event.indetRead Var.ptr 13] := rfl
  rw [h]
  decide

/-- C10: `example` takes no arguments, returns nothing, and each of its
stores (to a, b, iptr, buffer) targets a local of its own frame: for every
program state, running `example` leaves all non-local state unchanged. -/
theorem example_frame_effect (α : Type) (s : CState α) :
    ((runExample s).1).outer = s.outer := rfl
